import Mathlib

/-!
Verification development for the query-construction layer of
`pymwsqlite.py`, a MediaWiki-style wrapper around the Python sqlite3
module.  The builders below are shallow embeddings of the corresponding
Python functions: pure query/parameter construction is modelled as pure
functions, Python exceptions as `Except`, and the connection handle as an
`Option Nat` (the id of the open connection, if any).  Python dicts are
modelled as insertion sequences of key-value pairs whose lookup takes the
most recently written binding, which is exactly what `dict.update` and
double-splat merging expose.
-/

namespace PyMWSQLite

/-- Column and condition values travel opaquely from the caller to the
driver; we model them as strings. -/
abbrev Value := String

/-- A Python dict observed as its sequence of key-value writes; lookup
takes the last binding for a key, matching `dict.update` and
double-splat merge semantics. -/
abbrev Dict := List (String × Value)

/-- Lookup in a `Dict`: the value of the most recently written pair with
the given key. -/
def dget (d : Dict) (k : String) : Option Value :=
  (d.reverse.find? fun p => p.1 == k).map fun p => p.2

/-- Errors the Python code can raise on the paths modelled here. -/
inductive PyErr where
  | valueError (msg : String)
  | attributeError (msg : String)
  | indexError (msg : String)
  deriving Repr, DecidableEq

/-- The `Columns` union type of the source: a raw SQL string, a mapping
from column name to optional alias, or an iterable of column names. -/
inductive Columns where
  | str (s : String)
  | mapping (m : List (String × Option String))
  | seq (l : List String)

/-- The `Conditions` union type of the source: `None`, a raw SQL string
(without the WHERE keyword), or an iterable of
(column, operator, value) triples. -/
inductive Conditions where
  | none
  | str (s : String)
  | triples (l : List (String × String × Value))

/-- Python truthiness of an optional string: `None` and the empty string
are falsy. -/
def pyTruthyStr? : Option String → Bool
  | Option.none => false
  | Option.some s => s != ""

/-- The column fragment built at the top of `_select`: a string passes
through unchanged, a mapping emits `name AS alias` for truthy aliases and
the bare name otherwise, any other iterable joins the bare names; joined
with a comma and space. -/
def colsFragment : Columns → String
  | Columns.str s => s
  | Columns.mapping m =>
      ", ".intercalate (m.map fun p =>
        if pyTruthyStr? p.2 then p.1 ++ " AS " ++ p.2.getD "" else p.1)
  | Columns.seq l => ", ".intercalate l

/-- The WHERE fragment `_select`, `_update` and `delete` all build from a
sequence of condition triples: one `column operator :column` piece per
triple, joined with AND. -/
def condFragment (l : List (String × String × Value)) : String :=
  " AND ".intercalate (l.map fun i => i.1 ++ i.2.1 ++ ":" ++ i.1)

/-- The dict comprehension mapping each condition column to that triple
value, written in source order (so a later triple for the same column
overwrites an earlier one on lookup). -/
def condDict (l : List (String × String × Value)) : Dict :=
  l.map fun i => (i.1, i.2.2)

/-- The value bound to a condition column after the dict comprehension:
the value of the last triple naming that column. -/
def lastCondVal (l : List (String × String × Value)) (c : String) : Option Value :=
  (l.reverse.find? fun i => i.1 == c).map fun i => i.2.2

/-- Query and parameter construction of `_select`: formats the column
fragment and table into the SELECT skeleton, copies the explicit
parameters, appends the WHERE clause (string conditions verbatim, triple
conditions via `condFragment` with the condition values merged into the
parameters), then appends the options fragment when truthy. -/
def selectQueryParams (table : String) (cols : Columns) (conds : Conditions)
    (opts : Option String) (params : Option Dict) : String × Dict :=
  let query := "SELECT " ++ colsFragment cols ++ " FROM " ++ table
  let ps := params.getD []
  let qp : String × Dict :=
    match conds with
    | Conditions.str s => (query ++ " WHERE " ++ s, ps)
    | Conditions.triples l => (query ++ " WHERE " ++ condFragment l, ps ++ condDict l)
    | Conditions.none => (query, ps)
  if pyTruthyStr? opts then (qp.1 ++ " " ++ opts.getD "", qp.2) else qp

/-- Query construction of `_insert`: one named placeholder per column. -/
def insertQuery (table : String) (columns : List String) : String :=
  let values := ", ".intercalate (columns.map fun i => ":" ++ i)
  "INSERT INTO " ++ table ++ " (" ++ ", ".intercalate columns ++ ") VALUES ("
    ++ values ++ ")"

/-- A key of the values mapping passed to `update`: the docstring allows a
single column name or a tuple of column names sharing one value. -/
inductive UpdateKey where
  | str (s : String)
  | tup (l : List String)
  deriving Repr, DecidableEq

/-- Python repr of a plain string (one containing no quote or escape
characters, which is all the failing input below needs): the text wrapped
in single quotes. -/
def strRepr (s : String) : String := "\x27" ++ s ++ "\x27"

/-- Python str of a tuple of strings, as produced when `str.format`
stringifies a tuple key: parenthesised reprs of the elements, a
one-element tuple rendering with a trailing comma. -/
def tupleStr : List String → String
  | [x] => "(" ++ strRepr x ++ ",)"
  | l => "(" ++ ", ".intercalate (l.map strRepr) ++ ")"

/-- What the format call in `_update` turns a values-mapping key into: a
string key passes through, a tuple key is stringified by `str.format`. -/
def UpdateKey.pyStr : UpdateKey → String
  | UpdateKey.str s => s
  | UpdateKey.tup l => tupleStr l

/-- Query construction of `_update`: `key=:key` assignments joined with a
comma and space after the UPDATE skeleton, then the same condition-clause
forms as `_select`. -/
def updateQuery (table : String) (columns : List UpdateKey) (conds : Conditions) : String :=
  let sets := ", ".intercalate (columns.map fun i => i.pyStr ++ "=:" ++ i.pyStr)
  match conds with
  | Conditions.str s => "UPDATE " ++ table ++ " SET " ++ sets ++ " WHERE " ++ s
  | Conditions.triples l =>
      "UPDATE " ++ table ++ " SET " ++ sets ++ " WHERE " ++ condFragment l
  | Conditions.none => "UPDATE " ++ table ++ " SET " ++ sets

/-- Query and parameter construction of `delete`: the DELETE skeleton plus
the same condition-clause forms as `_select`, with an empty parameter dict
unless triples contribute condition values. -/
def deleteQueryParams (table : String) (conds : Conditions) : String × Dict :=
  let base := "DELETE FROM " ++ table
  match conds with
  | Conditions.str s => (base ++ " WHERE " ++ s, [])
  | Conditions.triples l => (base ++ " WHERE " ++ condFragment l, condDict l)
  | Conditions.none => (base, [])

/-- Query construction of `create_table`: the mapping form formats each
name-declaration pair with a space between; an absent declaration would be
stringified by `str.format` as the text None. -/
def pyStrOfOptStr : Option String → String
  | Option.none => "None"
  | Option.some s => s

def createTableQuery (tableName : String) (columns : Columns) : String :=
  let cols := match columns with
    | Columns.str s => s
    | Columns.mapping m =>
        ", ".intercalate (m.map fun p => p.1 ++ " " ++ pyStrOfOptStr p.2)
    | Columns.seq l => ", ".intercalate l
  "CREATE TABLE " ++ tableName ++ "(" ++ cols ++ ")"

/-- The guard installed by the `_check_open` decorator: raises ValueError
when the handle holds no connection. -/
def checkOpen (conn : Option Nat) : Except PyErr Unit :=
  match conn with
  | Option.some _ => Except.ok ()
  | Option.none => Except.error (PyErr.valueError ("Cannot operate on an unopened database."))

/-- The dict comprehension the public `update` and `updatemany` run over
`conditions or ()` to build the condition-derived parameter values.
Iterating a nonempty condition STRING yields one-character strings, and
indexing such a string at position 2 raises IndexError; `None` and empty
iterables fall back to the empty tuple. -/
def condValsPy : Conditions → Except PyErr Dict
  | Conditions.none => Except.ok []
  | Conditions.str s =>
      if s = "" then Except.ok []
      else Except.error (PyErr.indexError ("string index out of range"))
  | Conditions.triples l => Except.ok (condDict l)

/-- Python `rows[0]` on a list: IndexError when the list is empty. -/
def pyFirst (rows : List Dict) : Except PyErr Dict :=
  match rows with
  | [] => Except.error (PyErr.indexError ("list index out of range"))
  | r :: _ => Except.ok r

/-- Python `values.keys()` as written in `updatemany`: the receiver is the
iterable of row mappings, i.e. a list, and a list has no keys attribute,
so the call raises AttributeError (message punctuation elided). -/
def pyListKeys (_values : List (List (String × Value))) : Except PyErr (List String) :=
  Except.error (PyErr.attributeError ("list object has no attribute keys"))

/-- The public `select`: the decorated `_select` checks the connection
first, then builds and executes one query with the merged parameters. -/
def selectOp (conn : Option Nat) (table : String) (cols : Columns) (conds : Conditions)
    (opts : Option String) (params : Option Dict) : Except PyErr (String × Dict) := do
  checkOpen conn
  pure (selectQueryParams table cols conds opts params)

/-- The public `selectone`: same construction and execution as `select`,
followed by a driver-side fetch of one row. -/
def selectoneOp (conn : Option Nat) (table : String) (cols : Columns) (conds : Conditions)
    (opts : Option String) (params : Option Dict) : Except PyErr (String × Dict) := do
  checkOpen conn
  pure (selectQueryParams table cols conds opts params)

/-- The public `fetchone`: only the open-check and a driver-side fetch. -/
def fetchoneOp (conn : Option Nat) : Except PyErr Unit := do
  checkOpen conn
  pure ()

/-- The public `insert`: the row keys are read at the call site, the
decorated `_insert` checks the connection and builds the query, and the
row mapping itself is passed as the parameters. -/
def insertOp (conn : Option Nat) (table : String) (rows : Dict) :
    Except PyErr (String × Dict) := do
  checkOpen conn
  pure (insertQuery table (rows.map Prod.fst), rows)

/-- The public `insertmany`: `rows[0]` is indexed at the call site (before
the open-check inside `_insert` runs), the query is built once from the
first row, and the batch execute runs it once per row with that row as
the parameters. -/
def insertmanyOp (conn : Option Nat) (table : String) (rows : List Dict) :
    Except PyErr (List (String × Dict)) := do
  let first ← pyFirst rows
  checkOpen conn
  let query := insertQuery table (first.map Prod.fst)
  pure (rows.map fun r => (query, r))

/-- The public `update`, modelled for string-keyed values mappings (tuple
keys only influence the SQL text, which `updateQuery` models directly):
the decorated `_update` checks the connection and builds the query, then
the executed parameters are the values mapping double-splat-merged with
the condition-derived values, condition entries written last. -/
def updateOp (conn : Option Nat) (table : String) (values : Dict) (conds : Conditions) :
    Except PyErr (String × Dict) := do
  checkOpen conn
  let query := updateQuery table (values.map fun p => UpdateKey.str p.1) conds
  let condvals ← condValsPy conds
  pure (query, values ++ condvals)

/-- The public `updatemany`: the source reads `values.keys()` where
`values` is the iterable of row mappings, so the keys lookup raises
before the open-check inside `_update` and before any SQL is built; had
it succeeded, each row would be merged with the condition values and
executed once. -/
def updatemanyOp (conn : Option Nat) (table : String)
    (values : List (List (String × Value))) (conds : Conditions) :
    Except PyErr (List (String × Dict)) := do
  let ks ← pyListKeys values
  checkOpen conn
  let query := updateQuery table (ks.map UpdateKey.str) conds
  let condvals ← condValsPy conds
  pure (values.map fun val => (query, val ++ condvals))

/-- The public `create_table`: open-check, then one execution with no
parameters. -/
def createTableOp (conn : Option Nat) (tableName : String) (columns : Columns) :
    Except PyErr String := do
  checkOpen conn
  pure (createTableQuery tableName columns)

/-- The public `delete`: open-check, then one execution of the DELETE
query with the condition-derived parameters. -/
def deleteOp (conn : Option Nat) (table : String) (conds : Conditions) :
    Except PyErr (String × Dict) := do
  checkOpen conn
  pure (deleteQueryParams table conds)

/-- The public `drop_table`: open-check, then one execution with no
parameters. -/
def dropTableOp (conn : Option Nat) (tableName : String) : Except PyErr String := do
  checkOpen conn
  pure ("DROP TABLE " ++ tableName)

/-- Engine-visible events of the connection lifecycle. -/
inductive Event where
  | commit (c : Nat)
  | closeConn (c : Nat)
  | connect (c : Nat)
  deriving Repr, DecidableEq

/-- The `close` method on an open connection: commit, close, clear the
handle. -/
def closeFn (conn : Nat) : Option Nat × List Event :=
  (Option.none, [Event.commit conn, Event.closeConn conn])

/-- The `open` method: with an existing connection it either closes it
first (when `close_existing` is set) or raises ValueError leaving the
connection in place; then a fresh connection is opened.  Returns the
resulting handle state, the outcome, and the engine-visible events in
order. -/
def openFn (conn : Option Nat) (closeExisting : Bool) (newId : Nat) :
    Option Nat × Except PyErr Unit × List Event :=
  match conn with
  | Option.some c =>
      if closeExisting then
        let closed := closeFn c
        (Option.some newId, Except.ok (), closed.2 ++ [Event.connect newId])
      else
        (Option.some c,
         Except.error (PyErr.valueError
           ("Attempt to open new connection when existing one is not yet closed.")),
         [])
  | Option.none => (Option.some newId, Except.ok (), [Event.connect newId])

/-! Helper lemmas about dict lookup over the condition-derived values. -/

theorem condDict_reverse_find (l : List (String × String × Value)) (c : String) :
    ((condDict l).reverse.find? fun p => p.1 == c)
      = (l.reverse.find? fun i => i.1 == c).map fun i => (i.1, i.2.2) := by
  unfold condDict
  rw [← List.map_reverse, List.find?_map]
  rfl

theorem find?_isSome_of_mem_col (l : List (String × String × Value)) (c : String)
    (h : c ∈ l.map fun i => i.1) :
    (l.reverse.find? fun i => i.1 == c).isSome := by
  rw [List.find?_isSome]
  obtain ⟨i, hi, hic⟩ := List.mem_map.mp h
  exact ⟨i, List.mem_reverse.mpr hi, by simp [hic]⟩

theorem dget_condDict (l : List (String × String × Value)) (c : String) :
    dget (condDict l) c = lastCondVal l c := by
  unfold dget lastCondVal
  rw [condDict_reverse_find]
  cases l.reverse.find? fun i => i.1 == c <;> rfl

theorem dget_append_condDict (d : Dict) (l : List (String × String × Value)) (c : String)
    (h : c ∈ l.map fun i => i.1) :
    dget (d ++ condDict l) c = lastCondVal l c := by
  unfold dget lastCondVal
  rw [List.reverse_append, List.find?_append, condDict_reverse_find]
  obtain ⟨x, hx⟩ := Option.isSome_iff_exists.mp (find?_isSome_of_mem_col l c h)
  rw [hx]
  rfl

theorem lastCondVal_isSome (l : List (String × String × Value)) (c : String)
    (h : c ∈ l.map fun i => i.1) : (lastCondVal l c).isSome := by
  unfold lastCondVal
  obtain ⟨x, hx⟩ := Option.isSome_iff_exists.mp (find?_isSome_of_mem_col l c h)
  rw [hx]
  rfl

theorem selectQueryParams_triples_snd (t : String) (cols : Columns)
    (l : List (String × String × Value)) (opts : Option String) (p : Option Dict) :
    (selectQueryParams t cols (Conditions.triples l) opts p).2 = p.getD [] ++ condDict l := by
  unfold selectQueryParams
  cases hOpt : pyTruthyStr? opts <;> simp [hOpt]

theorem selectQueryParams_triples_fst (t : String) (cols : Columns)
    (l : List (String × String × Value)) (opts : Option String) (p : Option Dict) :
    (selectQueryParams t cols (Conditions.triples l) opts p).1
      = (if pyTruthyStr? opts then
           "SELECT " ++ colsFragment cols ++ " FROM " ++ t ++ " WHERE " ++ condFragment l
             ++ " " ++ opts.getD ""
         else
           "SELECT " ++ colsFragment cols ++ " FROM " ++ t ++ " WHERE " ++ condFragment l) := by
  unfold selectQueryParams
  cases hOpt : pyTruthyStr? opts <;> simp [hOpt]

/-- C1: given both an explicit parameter (or values) mapping and a
sequence of condition triples, the parameter mapping passed to the driver
binds each condition column to the value of the (last) triple naming it,
overriding any explicit entry under the same key, and the merge direction
is the same in select and in update. -/
theorem cond_merge_direction_select_update
    (t : String) (cols : Columns) (opts : Option String) (conn : Nat)
    (explicit values : Dict) (l : List (String × String × Value)) (c : String)
    (h : c ∈ l.map fun i => i.1) :
    dget (selectQueryParams t cols (Conditions.triples l) opts (Option.some explicit)).2 c
      = lastCondVal l c
    ∧ updateOp (Option.some conn) t values (Conditions.triples l)
        = Except.ok (updateQuery t (values.map fun p => UpdateKey.str p.1)
            (Conditions.triples l), values ++ condDict l)
    ∧ dget (values ++ condDict l) c = lastCondVal l c
    ∧ (lastCondVal l c).isSome := by
  refine ⟨?_, rfl, dget_append_condDict values l c h, lastCondVal_isSome l c h⟩
  rw [selectQueryParams_triples_snd]
  exact dget_append_condDict explicit l c h

theorem cond_merge_direction_select_update_witness :
    dget (selectQueryParams ("t") (Columns.str ("*"))
        (Conditions.triples [("id", "=", "5")]) Option.none
        (Option.some [("id", "0")])).2 ("id")
      = lastCondVal [("id", "=", "5")] ("id")
    ∧ updateOp (Option.some 1) ("t") [("name", "z")] (Conditions.triples [("id", "=", "5")])
        = Except.ok (updateQuery ("t") ([("name", "z")].map fun p => UpdateKey.str p.1)
            (Conditions.triples [("id", "=", "5")]),
            [("name", "z")] ++ condDict [("id", "=", "5")])
    ∧ dget ([("name", "z")] ++ condDict [("id", "=", "5")]) ("id")
      = lastCondVal [("id", "=", "5")] ("id")
    ∧ (lastCondVal [("id", "=", "5")] ("id")).isSome :=
  cond_merge_direction_select_update ("t") (Columns.str ("*")) Option.none 1
    [("id", "0")] [("name", "z")] [("id", "=", "5")] ("id") (by decide)

/-- C2: on a handle with no active connection, nine of the ten public
operations raise the unopened-resource ValueError before any query
construction or execution, but `updatemany` evaluates `values.keys()` at
the call site before the decorated check runs, so a closed handle raises
AttributeError instead and the unopened-resource error never fires. -/
theorem closed_handle_guard_and_updatemany_divergence
    (t : String) (cols : Columns) (conds : Conditions) (opts : Option String)
    (p : Option Dict) (row r : Dict) (rest : List Dict) (values : Dict)
    (vrows : List (List (String × Value))) (tn : String) :
    selectOp Option.none t cols conds opts p
      = Except.error (PyErr.valueError ("Cannot operate on an unopened database."))
    ∧ selectoneOp Option.none t cols conds opts p
      = Except.error (PyErr.valueError ("Cannot operate on an unopened database."))
    ∧ fetchoneOp Option.none
      = Except.error (PyErr.valueError ("Cannot operate on an unopened database."))
    ∧ insertOp Option.none t row
      = Except.error (PyErr.valueError ("Cannot operate on an unopened database."))
    ∧ insertmanyOp Option.none t (r :: rest)
      = Except.error (PyErr.valueError ("Cannot operate on an unopened database."))
    ∧ updateOp Option.none t values conds
      = Except.error (PyErr.valueError ("Cannot operate on an unopened database."))
    ∧ createTableOp Option.none tn cols
      = Except.error (PyErr.valueError ("Cannot operate on an unopened database."))
    ∧ deleteOp Option.none t conds
      = Except.error (PyErr.valueError ("Cannot operate on an unopened database."))
    ∧ dropTableOp Option.none tn
      = Except.error (PyErr.valueError ("Cannot operate on an unopened database."))
    ∧ updatemanyOp Option.none t vrows conds
      = Except.error (PyErr.attributeError ("list object has no attribute keys")) :=
  ⟨rfl, rfl, rfl, rfl, rfl, rfl, rfl, rfl, rfl, rfl⟩

/-- C3: every batch update is meant to build its SQL once from the keys of
the first values row, but the source calls keys() on the sequence of
row mappings itself, so even on an open handle a batch update over a
nonempty sequence raises AttributeError and builds no SQL at all. -/
theorem updatemany_keys_on_sequence_bug :
    updatemanyOp (Option.some 1) ("t") [[("a", "1")], [("a", "2")]]
        (Conditions.triples [("id", "=", "7")])
      = Except.error (PyErr.attributeError ("list object has no attribute keys")) :=
  rfl

/-- C4: the update builder is documented to accept tuple keys naming
several columns that share one value, but the format call splices the
Python str of the tuple into the SQL, producing a parenthesised, quoted
repr on both sides of the assignment instead of a well-formed
column assignment. -/
theorem update_tuple_key_emits_python_repr :
    updateQuery ("t") [UpdateKey.tup ["a", "b"]] Conditions.none
      = "UPDATE t SET (\x27a\x27, \x27b\x27)=:(\x27a\x27, \x27b\x27)" :=
  rfl

/-- C5: for every column spec given to select, a string is spliced into
the SQL unchanged; a mapping emits, in insertion order, the bare name for
entries with an empty or absent alias and `name AS alias` for entries
with a nonempty alias, joined with a comma and space; any other sequence
emits the bare names so joined. -/
theorem select_column_spec_normalization (s : String)
    (m : List (String × Option String)) (l : List String) :
    colsFragment (Columns.str s) = s
    ∧ colsFragment (Columns.mapping m)
        = ", ".intercalate (m.map fun p =>
            match p.2 with
            | Option.none => p.1
            | Option.some a => if a = "" then p.1 else p.1 ++ " AS " ++ a)
    ∧ colsFragment (Columns.seq l) = ", ".intercalate l := by
  refine ⟨rfl, ?_, rfl⟩
  unfold colsFragment
  have he : ∀ p : String × Option String,
      (if pyTruthyStr? p.2 then p.1 ++ " AS " ++ p.2.getD "" else p.1)
        = match p.2 with
          | Option.none => p.1
          | Option.some a => if a = "" then p.1 else p.1 ++ " AS " ++ a := by
    intro p
    match p with
    | (n, Option.none) => rfl
    | (n, Option.some a) =>
      by_cases hA : a = ""
      · subst hA
        rfl
      · simp [pyTruthyStr?, hA]
  simp only [he]

/-- C6: a single-row insert builds INSERT INTO table (columns) VALUES
(placeholders) with one named placeholder per column of the row mapping
and passes the row mapping itself as the parameters; a batch insert takes
its column list from the first row only, builds the SQL once, and
executes it once per row with that row as the parameters. -/
theorem insert_single_and_batch_shape (conn : Nat) (t : String)
    (row r : Dict) (rest : List Dict) :
    insertOp (Option.some conn) t row
      = Except.ok ("INSERT INTO " ++ t ++ " (" ++ ", ".intercalate (row.map Prod.fst)
          ++ ") VALUES ("
          ++ ", ".intercalate ((row.map Prod.fst).map fun c => ":" ++ c) ++ ")",
          row)
    ∧ insertmanyOp (Option.some conn) t (r :: rest)
      = Except.ok ((r :: rest).map fun row2 => (insertQuery t (r.map Prod.fst), row2)) :=
  ⟨rfl, rfl⟩

/-- C7: with a raw string condition, select, update and delete each append
exactly one WHERE keyword followed by the string verbatim to the query
they would build with no condition, so the string-condition policy is
uniform across the three operations. -/
theorem string_condition_where_uniform (t : String) (cols : Columns)
    (p : Option Dict) (ks : List UpdateKey) (s : String) :
    (selectQueryParams t cols (Conditions.str s) Option.none p).1
      = (selectQueryParams t cols Conditions.none Option.none p).1 ++ " WHERE " ++ s
    ∧ updateQuery t ks (Conditions.str s)
      = updateQuery t ks Conditions.none ++ " WHERE " ++ s
    ∧ (deleteQueryParams t (Conditions.str s)).1
      = (deleteQueryParams t Conditions.none).1 ++ " WHERE " ++ s :=
  ⟨rfl, rfl, rfl⟩

/-- C8: the generated SQL text never contains the supplied values: two
calls differing only in the values of their condition triples or row
mappings produce character-for-character identical SQL text, the values
travelling only through the parameter mapping. -/
theorem sql_text_independent_of_values
    (t : String) (cols : Columns) (opts : Option String) (p : Option Dict)
    (ks : List UpdateKey) (l1 l2 : List (String × String × Value)) (r1 r2 : Dict)
    (hc : (l1.map fun i => (i.1, i.2.1)) = l2.map fun i => (i.1, i.2.1))
    (hr : r1.map Prod.fst = r2.map Prod.fst) :
    (selectQueryParams t cols (Conditions.triples l1) opts p).1
      = (selectQueryParams t cols (Conditions.triples l2) opts p).1
    ∧ updateQuery t ks (Conditions.triples l1) = updateQuery t ks (Conditions.triples l2)
    ∧ (deleteQueryParams t (Conditions.triples l1)).1
      = (deleteQueryParams t (Conditions.triples l2)).1
    ∧ insertQuery t (r1.map Prod.fst) = insertQuery t (r2.map Prod.fst) := by
  have hmap : ∀ l : List (String × String × Value),
      l.map (fun i => i.1 ++ i.2.1 ++ ":" ++ i.1)
        = (l.map fun i => (i.1, i.2.1)).map fun q => q.1 ++ q.2 ++ ":" ++ q.1 := by
    intro l
    rw [List.map_map]
    rfl
  have hfrag : condFragment l1 = condFragment l2 := by
    unfold condFragment
    rw [hmap l1, hmap l2, hc]
  refine ⟨?_, ?_, ?_, by rw [hr]⟩
  · rw [selectQueryParams_triples_fst, selectQueryParams_triples_fst, hfrag]
  · exact congrArg (fun f => "UPDATE " ++ t ++ " SET "
      ++ ", ".intercalate (ks.map fun i => i.pyStr ++ "=:" ++ i.pyStr)
      ++ " WHERE " ++ f) hfrag
  · exact congrArg (fun f => "DELETE FROM " ++ t ++ " WHERE " ++ f) hfrag

theorem sql_text_independent_of_values_witness :
    (selectQueryParams ("t") (Columns.str ("*"))
        (Conditions.triples [("id", "=", "1")]) Option.none Option.none).1
      = (selectQueryParams ("t") (Columns.str ("*"))
        (Conditions.triples [("id", "=", "2")]) Option.none Option.none).1
    ∧ updateQuery ("t") [UpdateKey.str ("a")] (Conditions.triples [("id", "=", "1")])
      = updateQuery ("t") [UpdateKey.str ("a")] (Conditions.triples [("id", "=", "2")])
    ∧ (deleteQueryParams ("t") (Conditions.triples [("id", "=", "1")])).1
      = (deleteQueryParams ("t") (Conditions.triples [("id", "=", "2")])).1
    ∧ insertQuery ("t") ([("a", "1")].map Prod.fst)
      = insertQuery ("t") ([("a", "2")].map Prod.fst) :=
  sql_text_independent_of_values ("t") (Columns.str ("*")) Option.none Option.none
    [UpdateKey.str ("a")] [("id", "=", "1")] [("id", "=", "2")] [("a", "1")] [("a", "2")]
    rfl rfl

/-- C9: opening on a handle that already has an active connection raises
the double-open ValueError and leaves the existing connection in place
when the replace-existing flag is absent; with the flag, the old
connection is committed and closed before the new one is connected. -/
theorem open_double_open_and_replace (c newId : Nat) :
    openFn (Option.some c) false newId
      = (Option.some c,
         Except.error (PyErr.valueError
           ("Attempt to open new connection when existing one is not yet closed.")),
         [])
    ∧ openFn (Option.some c) true newId
      = (Option.some newId, Except.ok (),
         [Event.commit c, Event.closeConn c, Event.connect newId]) :=
  ⟨rfl, rfl⟩

/-- C10: with two or more triples naming the same column, the WHERE
clause carries one `column operator :column` fragment per triple, all
fragments for that column share the single placeholder named after the
column, and the parameter mapping binds that placeholder to the value of
the last such triple, in select, update and delete alike. -/
theorem duplicate_condition_columns_share_placeholder
    (t : String) (cols : Columns) (p : Dict) (ks : List UpdateKey) (values : Dict)
    (l : List (String × String × Value)) (c : String)
    (h : c ∈ l.map fun i => i.1) :
    (selectQueryParams t cols (Conditions.triples l) Option.none (Option.some p)).1
      = (selectQueryParams t cols Conditions.none Option.none (Option.some p)).1
        ++ " WHERE " ++ " AND ".intercalate (l.map fun i => i.1 ++ i.2.1 ++ ":" ++ i.1)
    ∧ updateQuery t ks (Conditions.triples l)
      = updateQuery t ks Conditions.none
        ++ " WHERE " ++ " AND ".intercalate (l.map fun i => i.1 ++ i.2.1 ++ ":" ++ i.1)
    ∧ (deleteQueryParams t (Conditions.triples l)).1
      = (deleteQueryParams t Conditions.none).1
        ++ " WHERE " ++ " AND ".intercalate (l.map fun i => i.1 ++ i.2.1 ++ ":" ++ i.1)
    ∧ dget (selectQueryParams t cols (Conditions.triples l) Option.none (Option.some p)).2 c
      = lastCondVal l c
    ∧ dget (values ++ condDict l) c = lastCondVal l c
    ∧ dget (deleteQueryParams t (Conditions.triples l)).2 c = lastCondVal l c := by
  refine ⟨rfl, rfl, rfl, ?_, dget_append_condDict values l c h, ?_⟩
  · rw [selectQueryParams_triples_snd]
    exact dget_append_condDict p l c h
  · exact dget_condDict l c

theorem duplicate_condition_columns_share_placeholder_witness :
    (selectQueryParams ("t") (Columns.str ("*"))
        (Conditions.triples [("id", ">", "1"), ("id", "<", "9")]) Option.none
        (Option.some [("id", "0")])).1
      = (selectQueryParams ("t") (Columns.str ("*")) Conditions.none Option.none
          (Option.some [("id", "0")])).1
        ++ " WHERE " ++ " AND ".intercalate
          ([("id", ">", "1"), ("id", "<", "9")].map fun i => i.1 ++ i.2.1 ++ ":" ++ i.1)
    ∧ updateQuery ("t") [UpdateKey.str ("name")]
        (Conditions.triples [("id", ">", "1"), ("id", "<", "9")])
      = updateQuery ("t") [UpdateKey.str ("name")] Conditions.none
        ++ " WHERE " ++ " AND ".intercalate
          ([("id", ">", "1"), ("id", "<", "9")].map fun i => i.1 ++ i.2.1 ++ ":" ++ i.1)
    ∧ (deleteQueryParams ("t") (Conditions.triples [("id", ">", "1"), ("id", "<", "9")])).1
      = (deleteQueryParams ("t") Conditions.none).1
        ++ " WHERE " ++ " AND ".intercalate
          ([("id", ">", "1"), ("id", "<", "9")].map fun i => i.1 ++ i.2.1 ++ ":" ++ i.1)
    ∧ dget (selectQueryParams ("t") (Columns.str ("*"))
        (Conditions.triples [("id", ">", "1"), ("id", "<", "9")]) Option.none
        (Option.some [("id", "0")])).2 ("id")
      = lastCondVal [("id", ">", "1"), ("id", "<", "9")] ("id")
    ∧ dget ([("name", "z")] ++ condDict [("id", ">", "1"), ("id", "<", "9")]) ("id")
      = lastCondVal [("id", ">", "1"), ("id", "<", "9")] ("id")
    ∧ dget (deleteQueryParams ("t")
        (Conditions.triples [("id", ">", "1"), ("id", "<", "9")])).2 ("id")
      = lastCondVal [("id", ">", "1"), ("id", "<", "9")] ("id") :=
  duplicate_condition_columns_share_placeholder ("t") (Columns.str ("*")) [("id", "0")]
    [UpdateKey.str ("name")] [("name", "z")] [("id", ">", "1"), ("id", "<", "9")] ("id")
    (by decide)

end PyMWSQLite
